import Mathlib

/-!
Verification of the Gateway Remote chain engine
(`Gateway_Remote/chain_tools.py`, `Gateway_Remote/parameter_resolver.py`).

The Python source is shallowly embedded: every function below is a direct
translation of the correspondingly named Python method.  Numbers are modelled
as `ℚ` (the source uses IEEE doubles; all claim-relevant computations are
exact small rationals), and all rational arithmetic goes through `mkRat`-based
wrappers (`qadd`, `qsub`, ...) so that proofs can be checked by kernel
reduction.  Strings are processed as `List Char`; `str.lower()` is modelled as
ASCII lowering.  Host-side effects (parameter writes, device moves, catalog
loads) are modelled by explicit state passing plus effect traces.
-/

/-! ## Rational arithmetic wrappers

The following wrappers are definitionally equal (as functions on reduced
rationals) to the ordinary field operations on `ℚ`, but are built from
`mkRat`/`Rat.divInt`, which the kernel can evaluate. -/

def qadd (a b : ℚ) : ℚ := mkRat (a.num * b.den + b.num * a.den) (a.den * b.den)

def qneg (a : ℚ) : ℚ := mkRat (-a.num) a.den

def qsub (a b : ℚ) : ℚ := qadd a (qneg b)

def qmul (a b : ℚ) : ℚ := mkRat (a.num * b.num) (a.den * b.den)

/-- Division `a / b` (Python float division; claim inputs never divide by 0). -/
def qdiv (a b : ℚ) : ℚ := Rat.divInt (a.num * b.den) (b.num * a.den)

/-- Python `abs`. -/
def qabs (a : ℚ) : ℚ := if a.num < 0 then qneg a else a

/-- Python `max` on two numbers. -/
def qmax (a b : ℚ) : ℚ := if a ≤ b then b else a

/-- Python `min` on two numbers. -/
def qmin (a b : ℚ) : ℚ := if b ≤ a then b else a

/-- Python `int()` applied to a float: truncation toward zero. -/
def pyInt (a : ℚ) : Int := a.num.tdiv a.den

/-! ## Python string primitives -/

/-- ASCII model of Python `str.lower` on one character. -/
def pyLowerChar (c : Char) : Char := c.toLower

/-- Model of Python `str.lower`. -/
def pyLower (s : String) : String := String.mk (s.data.map pyLowerChar)

/-- Whitespace characters stripped by Python `str.strip()`. -/
def isPySpace (c : Char) : Bool :=
  c = ' ' || c = '\t' || c = '\n' || c = '\r' || c = '\x0b' || c = '\x0c'

/-- Model of Python `str.strip()`. -/
def pyStrip (s : String) : String :=
  String.mk (((s.data.dropWhile isPySpace).reverse.dropWhile isPySpace).reverse)

/-- Characters matched by the token regex `[a-z0-9]+` (the source always
applies it to lowered text). -/
def isTokChar (c : Char) : Bool :=
  ('a' ≤ c && c ≤ 'z') || ('0' ≤ c && c ≤ '9')

/-- Maximal runs of characters satisfying `p`. -/
def charRuns (p : Char → Bool) : List Char → List (List Char)
  | [] => []
  | c :: cs =>
    if p c then
      match charRuns p cs with
      | [] => [[c]]
      | r :: rs =>
        match cs with
        | [] => [[c]]
        | d :: _ => if p d then (c :: r) :: rs else [c] :: r :: rs
    else charRuns p cs

/-- Model of `_TOKEN_RE.findall(text.lower())`: the source always lowers the
text before token extraction. -/
def findTokens (s : String) : List String :=
  (charRuns isTokChar (s.data.map pyLowerChar)).map String.mk

/-- Model of `ChainTools._normalize_name` / `parameter_resolver.normalize_query`:
lower-case and keep only alphanumeric characters. -/
def normalizeName (s : String) : String :=
  String.mk (List.flatten ((charRuns isTokChar (s.data.map pyLowerChar))))

/-- Model of `ChainTools._normalize_display_text`: token extraction followed by
a single-space join. -/
def normalizeDisplayText (s : String) : String :=
  String.mk (List.intercalate [' '] (charRuns isTokChar (s.data.map pyLowerChar)))

/-- Python substring containment `needle in hay`. -/
def strContains (hay needle : String) : Bool :=
  hay.data.tails.any (fun t => needle.data.isPrefixOf t)

/-! ## Display-number parsing (`ChainTools._parse_display_number`)

The source applies `re.search(r"[-+]?\d+\.?\d*", display)` and converts the
match with `float()`.  `re.search` returns the match at the leftmost starting
position; at a given position the pattern matches an optional sign (only when
a digit follows), a nonempty digit run, optionally a dot and a digit run. -/

def isDigitChar (c : Char) : Bool := '0' ≤ c && c ≤ '9'

def digitVal (c : Char) : Nat := c.toNat - '0'.toNat

/-- Splits a leading digit run, returning its value, its length and the rest. -/
def takeDigits : List Char → Nat → Nat → (Nat × Nat × List Char)
  | [], acc, n => (acc, n, [])
  | c :: cs, acc, n =>
    if isDigitChar c then takeDigits cs (acc * 10 + digitVal c) (n + 1)
    else (acc, n, c :: cs)

/-- Parses the number the regex matches starting at this exact position, if any
(a sign is consumed only when a digit follows, mirroring regex backtracking). -/
def matchNumberAt (cs : List Char) : Option ℚ :=
  let core : List Char → Option ℚ := fun ds =>
    match ds with
    | [] => none
    | d :: _ =>
      if isDigitChar d then
        let (ip, _, rest) := takeDigits ds 0 0
        match rest with
        | '.' :: rest2 =>
          let (fp, fn, _) := takeDigits rest2 0 0
          some (qadd (mkRat (Int.ofNat ip) 1) (mkRat (Int.ofNat fp) (10 ^ fn)))
        | _ => some (mkRat (Int.ofNat ip) 1)
      else none
  match cs with
  | [] => none
  | c :: rest =>
    if c = '-' then
      match core rest with
      | some q => some (qneg q)
      | none => none
    else if c = '+' then core rest
    else core cs

/-- Model of `ChainTools._parse_display_number` (on a present display string). -/
def parseDisplayNumber (display : String) : Option ℚ :=
  let rec go : List Char → Option ℚ
    | [] => none
    | c :: cs =>
      match matchNumberAt (c :: cs) with
      | some q => some q
      | none => go cs
  go display.data

/-! ## Unit hints (`ChainTools._normalize_unit_hint`,
`ChainTools._convert_display_number_for_unit`) -/

/-- Model of `ChainTools._normalize_unit_hint`.  An absent or empty unit
(falsy in Python) yields `none`. -/
def normalizeUnitHint (unit : Option String) : Option String :=
  match unit with
  | none => none
  | some u =>
    if u = "" then none
    else
      let value := pyLower (pyStrip u)
      let aliases : List (String × String) :=
        [("percent", "%"), ("percentage", "%"), ("pct", "%"), ("%", "%"),
         ("ms", "ms"), ("millisecond", "ms"), ("milliseconds", "ms"),
         ("s", "s"), ("sec", "s"), ("second", "s"), ("seconds", "s")]
      match aliases.find? (fun kv => kv.1 = value) with
      | some kv => some kv.2
      | none => some value

/-- Model of `ChainTools._convert_display_number_for_unit`. -/
def convertDisplayNumberForUnit (number : Option ℚ) (displayStr : String)
    (unitHint : Option String) : Option ℚ :=
  match number, unitHint with
  | none, _ => none
  | some n, none => some n
  | some n, some unit =>
    let display := pyLower displayStr
    if unit = "s" then
      if strContains display "ms" then some (qdiv n (1000 : ℚ)) else some n
    else if unit = "ms" then
      if strContains display "ms" then some n
      else if strContains display "sec" || strContains display "seconds" then
        some (qmul n (1000 : ℚ))
      else some n
    else if unit = "%" then
      if strContains display "%" then some n
      else if qneg 1 ≤ n ∧ n ≤ 1 then some (qmul n (100 : ℚ))
      else some n
    else some n

/-! ## Host object-graph data model

Live objects are duck-typed in the source; here they are structures exposing
exactly the attributes the engine reads.  A parameter's display-rendering
function (`str_for_value`) is the collaborator's rendering oracle and is kept
as a function field.  `pyTypeName` models Python's `type(obj).__name__`
fallback used by `_device_class_name`. -/

structure Param where
  name : String
  pmin : ℚ
  pmax : ℚ
  isQuantized : Bool
  strForValue : ℚ → String
  value : ℚ

structure Device where
  name : String
  className : String
  pyTypeName : String
  params : List Param

structure Track where
  name : String
  devices : List Device

structure Song where
  tracks : List Track
  selectedTrack : Option Nat

/-- Model of `ChainTools._safe_str_for_value` for a parameter exposing a total
`str_for_value` and a numeric backend value (the only case the claims
exercise). -/
def safeStrForValue (p : Param) (v : ℚ) : String := p.strForValue v

/-- Model of `ChainTools._device_class_name`. -/
def deviceClassName (d : Device) : String :=
  if d.className = "" then d.pyTypeName else d.className

/-- Concatenating join, Python `"".join(...)`. -/
def joinStrs (ts : List String) : String :=
  String.mk (List.flatten (ts.map (fun t => t.data)))

/-- Model of a Python value passed where a float is expected: `num q` converts
via `float()` to `q`; `nonnum` makes `float()` raise. -/
inductive NumLike where
  | num (q : ℚ)
  | nonnum
deriving DecidableEq

/-- Model of a Python value passed where an int is expected. -/
inductive IntLike where
  | int (i : Int)
  | nonint
deriving DecidableEq

/-! ## `parameter_resolver.py` -/

/-- Model of `parameter_resolver.normalize_query` (identical normalization to
`ChainTools._normalize_name`). -/
def normalizeQuery (s : String) : String := normalizeName s

structure ResolutionTrace where
  matchedBy : Option String
  query : String
  normalizedQuery : String
  candidateChain : List String
  resolvedParamName : Option String

/-- One insertion step of `build_parameter_index`: a key is skipped when empty
or already present (first occurrence wins). -/
def indexInsert (idx : List (String × Param)) (key : String) (p : Param) :
    List (String × Param) :=
  if key = "" then idx
  else if (idx.find? (fun kv => kv.1 = key)).isSome then idx
  else idx ++ [(key, p)]

/-- Model of `parameter_resolver.build_parameter_index`. -/
def buildParameterIndex (parameters : List Param) : List (String × Param) :=
  parameters.foldl (fun idx p => indexInsert idx (normalizeQuery p.name) p) []

/-- Dictionary lookup in the built index. -/
def indexGet (idx : List (String × Param)) (key : String) : Option Param :=
  (idx.find? (fun kv => kv.1 = key)).map (fun kv => kv.2)

/-- Strips a literal prefix, the building block of the `_EQ_BAND_RE` match. -/
def stripPre (pre s : String) : Option String :=
  if pre.data.isPrefixOf s.data then some (String.mk (s.data.drop pre.data.length))
  else none

/-- Matches the field part `(?:filter)?(type|frequency|freq|gain|q)$` of
`_EQ_BAND_RE` (greedily consuming `filter`, backtracking like the regex). -/
def eqBandField (t : String) : Option String :=
  let fields := ["type", "frequency", "freq", "gain", "q"]
  match stripPre "filter" t with
  | some rest =>
    if fields.contains rest then some rest
    else if fields.contains t then some t else none
  | none => if fields.contains t then some t else none

/-- Matches `_EQ_BAND_RE` = `^(?:band)?([1-8])(?:filter)?(type|...|q)$` against
a normalized query, returning the band digit and field on success. -/
def eqBandMatch (nq : String) : Option (Char × String) :=
  let tryCore : String → Option (Char × String) := fun t =>
    match t.data with
    | [] => none
    | c :: rest =>
      if '1' ≤ c && c ≤ '8' then
        match eqBandField (String.mk rest) with
        | some f => some (c, f)
        | none => none
      else none
  match stripPre "band" nq with
  | some rest =>
    match tryCore rest with
    | some r => some r
    | none => tryCore nq
  | none => tryCore nq

/-- Model of `parameter_resolver.eq_band_rule_candidates`. -/
def eqBandRuleCandidates (nq : String) : List String :=
  if nq = "" then []
  else
    match eqBandMatch nq with
    | none => []
    | some (band, field) =>
      let b := String.mk [band]
      if field = "type" then
        [b ++ " Filter Type A", b ++ " Filter Type", b ++ " Mode A", b ++ " Mode"]
      else if field = "frequency" || field = "freq" then
        [b ++ " Frequency A", b ++ " Frequency"]
      else if field = "gain" then [b ++ " Gain A", b ++ " Gain"]
      else if field = "q" then [b ++ " Q A", b ++ " Q"]
      else []

/-- Model of `parameter_resolver._is_eq_like`. -/
def isEqLike (device : Device) : Bool :=
  let dn := normalizeQuery device.name
  let dc := normalizeQuery device.className
  dn = "eqeight" || dc = "eq8" || dc = "eqeight"

/-- Scans a candidate list, appending each candidate to the trace chain before
looking it up, stopping at the first hit (the loop shape shared by the rule
and alias phases of `resolve_parameter`). -/
def chainScan (index : List (String × Param)) :
    List String → List String → List String × Option Param
  | chain, [] => (chain, none)
  | chain, c :: cs =>
    let chain' := chain ++ [c]
    match indexGet index (normalizeQuery c) with
    | some p => (chain', some p)
    | none => chainScan index chain' cs

/-- Model of `parameter_resolver.resolve_parameter`. -/
def resolveParameterRes (parameters : List Param) (device : Device)
    (query : String) (curatedAliases : List (String × List String)) :
    Option Param × ResolutionTrace :=
  let queryText := query
  let nq := normalizeQuery queryText
  if nq = "" then
    (none, ⟨none, queryText, nq, [], none⟩)
  else
    let index := buildParameterIndex parameters
    let chain0 := [queryText]
    match indexGet index nq with
    | some exact =>
      (some exact, ⟨some "exact", queryText, nq, chain0, some exact.name⟩)
    | none =>
      let ruleCands := if isEqLike device then eqBandRuleCandidates nq else []
      match chainScan index chain0 ruleCands with
      | (chain1, some p) =>
        (some p, ⟨some "rule", queryText, nq, chain1, some p.name⟩)
      | (chain1, none) =>
        let aliasCands :=
          match curatedAliases.find? (fun kv => kv.1 = nq) with
          | some kv => kv.2
          | none => []
        match chainScan index chain1 aliasCands with
        | (chain2, some p) =>
          (some p, ⟨some "alias", queryText, nq, chain2, some p.name⟩)
        | (chain2, none) => (none, ⟨none, queryText, nq, chain2, none⟩)

/-! ## Track resolution (`ChainTools._resolve_track_*`) -/

def trackStopWords : List String :=
  ["a", "an", "the", "track", "to", "on", "for", "my", "this", "that"]

/-- Model of `ChainTools._normalize_track_tokens`. -/
def normalizeTrackTokens (text : String) : List String :=
  let tokens := (findTokens text).filter (fun t => !(trackStopWords.contains t))
  if tokens = [] then findTokens text else tokens

/-- Distinct-element intersection count, Python `len(set(a) & set(b))`. -/
def setInterCount (a b : List String) : Nat :=
  (a.dedup.filter (fun x => b.contains x)).length

/-- Model of `ChainTools._score_track_name_match`. -/
def scoreTrackNameMatch (queryNorm : String) (candidateName : String) : ℚ :=
  let candidateTokens := normalizeTrackTokens candidateName
  let candidateNorm := joinStrs candidateTokens
  if candidateNorm = "" then 0
  else if queryNorm = candidateNorm then 5
  else if strContains candidateNorm queryNorm then mkRat 5 2
  else if strContains queryNorm candidateNorm then 2
  else
    let querySet := (findTokens queryNorm).dedup
    let candidateSet := candidateTokens.dedup
    if querySet = [] || candidateSet = [] then 0
    else mkRat (Int.ofNat (setInterCount querySet candidateSet)) 1

/-- Exact (strip + lower) track-name matches, the comprehension at the top of
`_resolve_track_by_name`; `q` is the already stripped-and-lowered query. -/
def exactTrackMatches (tracks : List Track) (q : String) : List (Nat × Track) :=
  tracks.enum.filter (fun it => pyLower (pyStrip it.2.name) = q)

/-- Positive-score fuzzy candidates in track order. -/
def scoredTracks (tracks : List Track) (queryNorm : String) :
    List (ℚ × Nat × Track) :=
  tracks.enum.filterMap (fun it =>
    let score := scoreTrackNameMatch queryNorm it.2.name
    if 0 < score then some (score, it.1, it.2) else none)

/-- Sort order for `scored.sort(key=lambda item: (-item[0], item[1]))`. -/
def scoredLE (a b : ℚ × Nat × Track) : Bool :=
  if a.1 = b.1 then a.2.1 ≤ b.2.1 else b.1 < a.1

def insertSorted (le : α → α → Bool) (x : α) : List α → List α
  | [] => [x]
  | y :: ys => if le x y then x :: y :: ys else y :: insertSorted le x ys

/-- Stable insertion sort, modelling Python's stable `list.sort`. -/
def sortByKey (le : α → α → Bool) : List α → List α
  | [] => []
  | x :: xs => insertSorted le x (sortByKey le xs)

/-- Model of `ChainTools._resolve_track_by_name`. -/
def resolveTrackByName (tracks : List Track) (query : String) :
    Option (Track × Nat) :=
  let q := pyLower (pyStrip query)
  if q = "" then none
  else
    match exactTrackMatches tracks q with
    | [(idx, tr)] => some (tr, idx)
    | _ :: _ :: _ => none
    | [] =>
      let queryNorm := joinStrs (normalizeTrackTokens q)
      match sortByKey scoredLE (scoredTracks tracks queryNorm) with
      | [] => none
      | best :: [] => some (best.2.2, best.2.1)
      | best :: second :: _ =>
        if qabs (qsub best.1 second.1) < mkRat 1 4 then none
        else some (best.2.2, best.2.1)

/-- Caller-supplied target descriptor for `_resolve_track_target`. -/
structure TargetObj where
  useSelectedTrack : Option Bool
  trackIndex : Option IntLike
  trackName : Option String

inductive TargetVal where
  | noTarget
  | notObj
  | obj (t : TargetObj)

/-- The view's selected track together with its `_track_index` (a stale or
absent selection resolves to `none`, surfacing "No selected track"). -/
def songSelected (song : Song) : Option (Track × Int) :=
  match song.selectedTrack with
  | none => none
  | some i =>
    match song.tracks.get? i with
    | some tr => some (tr, Int.ofNat i)
    | none => none

/-- Model of `ChainTools._resolve_track_target`. -/
def resolveTrackTarget (song : Song) (target : TargetVal) :
    Except String (Track × Int) :=
  match target with
  | .notObj => .error "target must be an object"
  | .noTarget =>
    match songSelected song with
    | none => .error "No selected track"
    | some (tr, i) => .ok (tr, i)
  | .obj t =>
    let useSelected := t.useSelectedTrack.getD true
    let trackNameTruthy : Bool :=
      match t.trackName with
      | some s => !(s = "")
      | none => false
    if useSelected && t.trackIndex.isNone && !trackNameTruthy then
      match songSelected song with
      | none => .error "No selected track"
      | some (tr, i) => .ok (tr, i)
    else
      match t.trackIndex with
      | some (.nonint) => .error "Invalid track_index"
      | some (.int i) =>
        if i < 0 ∨ (song.tracks.length : Int) ≤ i then .error "Invalid track_index"
        else
          match song.tracks.get? i.toNat with
          | some tr => .ok (tr, i)
          | none => .error "Invalid track_index"
      | none =>
        if trackNameTruthy then
          match resolveTrackByName song.tracks (t.trackName.getD "") with
          | none => .error "Track not found"
          | some (tr, idx) => .ok (tr, Int.ofNat idx)
        else
          match songSelected song with
          | none => .error "No selected track"
          | some (tr, i) => .ok (tr, i)

/-! ## Value application (`ChainTools._set_parameter_*`)

Each applier returns its structured result dictionary, the post-state of the
parameter, and the trace of backing-value assignments it performed (the
shallow embedding of `param.value = v`; an empty trace means the parameter was
never written). -/

structure ApplyRes where
  ok : Bool
  error : Option String
  mode : Option String
  value : Option ℚ
  display : Option String
  exactMatch : Option Bool
deriving DecidableEq

/-- Failure dictionary `{"ok": False, "error": msg}`. -/
def applyError (msg : String) : ApplyRes :=
  { ok := false, error := some msg, mode := none, value := none,
    display := none, exactMatch := none }

/-- Model of `ChainTools._set_parameter_absolute`. -/
def setParameterAbsolute (param : Param) (value : NumLike) :
    ApplyRes × Param × List ℚ :=
  match value with
  | .nonnum => (applyError "value must be numeric", param, [])
  | .num v0 =>
    let v1 := qmax param.pmin v0
    let v := qmin param.pmax v1
    let param1 : Param := { param with value := v }
    ({ ok := true, error := none, mode := some "absolute",
       value := some param1.value,
       display := some (safeStrForValue param1 param1.value),
       exactMatch := none }, param1, [v])

/-- Python `str.split()` (whitespace runs). -/
def splitSpaces (s : String) : List String :=
  (charRuns (fun c => !isPySpace c) s.data).map String.mk

/-- Model of `ChainTools._score_display_text_match`. -/
def scoreDisplayTextMatch (targetNorm candidateNorm : String) : ℚ × Bool :=
  if targetNorm = "" ∨ candidateNorm = "" then (0, false)
  else if targetNorm = candidateNorm then (100, true)
  else if strContains candidateNorm targetNorm || strContains targetNorm candidateNorm then
    (10, false)
  else
    let targetTokens := (splitSpaces targetNorm).dedup
    let candidateTokens := (splitSpaces candidateNorm).dedup
    (mkRat (Int.ofNat (setInterCount targetTokens candidateTokens)) 1, false)

/-- Model of `steps = int(max(1, (p_max - p_min) + 1))`. -/
def quantizedStepCount (param : Param) : Nat :=
  (pyInt (qmax 1 (qadd (qsub param.pmax param.pmin) 1))).toNat

/-- Enumerated backing values `p_min + i for i in range(steps)`. -/
def quantizedStepCandidates (param : Param) : List ℚ :=
  (List.range (quantizedStepCount param)).map
    (fun i => qadd param.pmin (mkRat (Int.ofNat i) 1))

/-- Comparison against a best-so-far that starts at `float("inf")`. -/
def qltOpt (d : ℚ) (bd : Option ℚ) : Bool :=
  match bd with
  | none => true
  | some b => decide (d < b)

/-- Best-step scan of `_set_parameter_by_display_text` (early break on an
exact hit); the accumulator is `(best_val, best_score, best_exact)`. -/
def dtScan (param : Param) (targetNorm : String) :
    List ℚ → Option ℚ × ℚ × Bool → Option ℚ × ℚ × Bool
  | [], acc => acc
  | c :: rest, (bv, bs, be) =>
    let display := safeStrForValue param c
    let sc := scoreDisplayTextMatch targetNorm (normalizeDisplayText display)
    if bs < sc.1 then
      if sc.2 then (some c, sc.1, sc.2)
      else dtScan param targetNorm rest (some c, sc.1, sc.2)
    else dtScan param targetNorm rest (bv, bs, be)

/-- Fallback tail of `_set_parameter_by_display_text` (best score was zero). -/
def displayTextFallback (param : Param) (fallbackValue : Option NumLike) :
    ApplyRes × Param × List ℚ :=
  match fallbackValue with
  | some fb =>
    let (res, p1, w) := setParameterAbsolute param fb
    if !res.ok then (res, p1, w)
    else
      ({ ok := true, error := none, mode := some "display_text_fallback",
         value := res.value, display := res.display,
         exactMatch := some false }, p1, w)
  | none =>
    (applyError "target_display_text did not match any quantized value", param, [])

/-- Model of `ChainTools._set_parameter_by_display_text`. -/
def setParameterByDisplayText (param : Param) (targetDisplayText : String)
    (fallbackValue : Option NumLike) : ApplyRes × Param × List ℚ :=
  let targetNorm := normalizeDisplayText targetDisplayText
  if targetNorm = "" then
    (applyError "target_display_text must be a non-empty string", param, [])
  else if !param.isQuantized then
    (applyError "target_display_text is only supported for quantized parameters",
      param, [])
  else
    let scan := dtScan param targetNorm (quantizedStepCandidates param) (none, 0, false)
    match scan with
    | (some bestVal, bestScore, bestExact) =>
      if 0 < bestScore then
        let param1 : Param := { param with value := bestVal }
        ({ ok := true, error := none, mode := some "display_text",
           value := some param1.value,
           display := some (safeStrForValue param1 param1.value),
           exactMatch := some bestExact }, param1, [bestVal])
      else displayTextFallback param fallbackValue
    | (none, _, _) => displayTextFallback param fallbackValue

/-- The `read_display` closure of `_set_parameter_with_verify`: render, parse
the first number, convert it for the requested unit. -/
def verifyReadDisplay (param : Param) (unit : Option String) (backend : ℚ) :
    String × Option ℚ :=
  let display := safeStrForValue param backend
  (display, convertDisplayNumberForUnit (parseDisplayNumber display) display unit)

/-- Default `max_iterations` of `_set_parameter_with_verify` (never overridden
by any caller in the source). -/
def maxIterationsDefault : Nat := 15

/-- Default `tolerance` (0.1% relative). -/
def toleranceDefault : ℚ := mkRat 1 1000

/-- Quantized scan of `_set_parameter_with_verify`: keep the step whose
converted display is closest to the target, breaking once within 0.001. -/
def verifyScan (read : ℚ → Option ℚ) (target : ℚ) :
    List ℚ → ℚ → Option ℚ → ℚ × Option ℚ
  | [], bestVal, bestDiff => (bestVal, bestDiff)
  | c :: rest, bestVal, bestDiff =>
    match read c with
    | none => verifyScan read target rest bestVal bestDiff
    | some num =>
      let diff := qabs (qsub num target)
      if qltOpt diff bestDiff then
        if diff < mkRat 1 1000 then (c, some diff)
        else verifyScan read target rest c (some diff)
      else verifyScan read target rest bestVal bestDiff

/-- Bounded bisection of `_set_parameter_with_verify` for continuous
parameters; returns `(best_val, best_diff)` when the loop exits. -/
def bisectLoop (read : ℚ → Option ℚ) (target tolerance : ℚ) (ascending : Bool) :
    Nat → ℚ → ℚ → ℚ → Option ℚ → ℚ × Option ℚ
  | 0, _, _, bestVal, bestDiff => (bestVal, bestDiff)
  | n + 1, low, high, bestVal, bestDiff =>
    let mid := qdiv (qadd low high) 2
    match read mid with
    | none => (bestVal, bestDiff)
    | some midNum =>
      let diff := qabs (qsub midNum target)
      let acc := if qltOpt diff bestDiff then (mid, some diff) else (bestVal, bestDiff)
      if (if target ≠ 0 then qdiv diff (qabs target) < tolerance
          else diff < mkRat 1 100) then acc
      else
        let bounds :=
          if ascending then (if midNum < target then (mid, high) else (low, mid))
          else (if target < midNum then (mid, high) else (low, mid))
        if qabs (qsub bounds.2 bounds.1) < mkRat 1 10000 then acc
        else bisectLoop read target tolerance ascending n bounds.1 bounds.2 acc.1 acc.2

/-- Common tail of `_set_parameter_with_verify`: optionally apply the clamped
fallback value when not exact, then build the result dictionary (which always
reports `ok=True` and mode `display_verify`). -/
def verifyFallback (param1 : Param) (unit : Option String)
    (fallbackValue : Option NumLike) (display : String) (exact : Bool)
    (writes : List ℚ) : ApplyRes × Param × List ℚ :=
  let tail :=
    if !exact then
      match fallbackValue with
      | some (.num fv) =>
        let fb := qmax param1.pmin (qmin param1.pmax fv)
        let p2 : Param := { param1 with value := fb }
        let rd := verifyReadDisplay p2 unit p2.value
        (p2, rd.1, true, writes ++ [fb])
      | some .nonnum => (param1, display, false, writes)
      | none => (param1, display, false, writes)
    else (param1, display, false, writes)
  ({ ok := true, error := none, mode := some "display_verify",
     value := some tail.1.value, display := some tail.2.1,
     exactMatch := some (exact && !tail.2.2.1) }, tail.1, tail.2.2.2)

/-- Model of `ChainTools._set_parameter_with_verify`. -/
def setParameterWithVerify (param : Param) (targetDisplayValue : NumLike)
    (targetUnit : Option String) (fallbackValue : Option NumLike) :
    ApplyRes × Param × List ℚ :=
  match targetDisplayValue with
  | .nonnum => (applyError "target_display_value must be numeric", param, [])
  | .num target =>
    let unit := normalizeUnitHint targetUnit
    let pMin := param.pmin
    let pMax := param.pmax
    let read := fun b => (verifyReadDisplay param unit b).2
    if param.isQuantized then
      let scan := verifyScan read target (quantizedStepCandidates param) pMin none
      let param1 : Param := { param with value := scan.1 }
      let rd := verifyReadDisplay param1 unit param1.value
      let exact :=
        match rd.2 with
        | none => false
        | some fn => decide (qabs (qsub fn target) < mkRat 1 100)
      verifyFallback param1 unit fallbackValue rd.1 exact [scan.1]
    else
      let lowNum := read pMin
      let highNum := read pMax
      let ascending :=
        match lowNum, highNum with
        | some ln, some hn => decide (ln < hn)
        | _, _ => true
      let bv0 := qdiv (qadd pMin pMax) 2
      let run := bisectLoop read target toleranceDefault ascending
        (max 1 maxIterationsDefault) pMin pMax bv0 none
      let bestVal := qmax pMin (qmin pMax run.1)
      let param1 : Param := { param with value := bestVal }
      let rd := verifyReadDisplay param1 unit param1.value
      let exact :=
        match rd.2 with
        | none => false
        | some fn =>
          if target ≠ 0 then
            decide (qdiv (qabs (qsub fn target)) (qabs target) < toleranceDefault)
          else decide (qabs (qsub fn target) < mkRat 1 100)
      verifyFallback param1 unit fallbackValue rd.1 exact [bestVal]

/-! ## Parameter resolution inside `ChainTools` (`_resolve_parameter`,
`_parameter_query_candidates`, `_match_parameter_by_name`) -/

/-- The curated `_EQ8_PARAMETER_ALIASES` table. -/
def eq8ParameterAliases : List (String × List String) :=
  [("1type", ["1 Filter Type A", "1 Filter Type", "1 Mode A", "1 Mode"]),
   ("1filtertype", ["1 Filter Type A", "1 Filter Type", "1 Mode A", "1 Mode"]),
   ("band1type", ["1 Filter Type A", "1 Filter Type", "1 Mode A", "1 Mode"]),
   ("8type", ["8 Filter Type A", "8 Filter Type", "8 Mode A", "8 Mode"]),
   ("8filtertype", ["8 Filter Type A", "8 Filter Type", "8 Mode A", "8 Mode"]),
   ("band8type", ["8 Filter Type A", "8 Filter Type", "8 Mode A", "8 Mode"]),
   ("lowshelfgain", ["1 Gain A", "1 Gain"]),
   ("lowshelffrequency", ["1 Frequency A", "1 Frequency"]),
   ("lowshelffreq", ["1 Frequency A", "1 Frequency"]),
   ("bassfrequency", ["1 Frequency A", "1 Frequency"]),
   ("bassfreq", ["1 Frequency A", "1 Frequency"]),
   ("lowshelfq", ["1 Q A", "1 Q"]),
   ("bassq", ["1 Q A", "1 Q"]),
   ("highshelfgain", ["8 Gain A", "8 Gain"]),
   ("highshelffrequency", ["8 Frequency A", "8 Frequency"]),
   ("highshelffreq", ["8 Frequency A", "8 Frequency"]),
   ("treblefrequency", ["8 Frequency A", "8 Frequency"]),
   ("treblefreq", ["8 Frequency A", "8 Frequency"]),
   ("highshelfq", ["8 Q A", "8 Q"]),
   ("trebleq", ["8 Q A", "8 Q"])]

/-- Model of `ChainTools._is_eq8_device`. -/
def isEq8Device (device : Device) : Bool :=
  let deviceName := normalizeName device.name
  let deviceClass := normalizeName device.className
  deviceName = "eqeight" || deviceClass = "eq8" || deviceClass = "eqeight"

/-- Deduplication key used in `_parameter_query_candidates`. -/
def candidateKey (item : String) : String :=
  let key := normalizeName item
  if key = "" then pyLower (pyStrip item) else key

def dedupCandidates : List String → List String → List String
  | [], _ => []
  | c :: cs, seen =>
    let key := candidateKey c
    if seen.contains key then dedupCandidates cs seen
    else c :: dedupCandidates cs (key :: seen)

/-- Model of `ChainTools._parameter_query_candidates` (a `none` query models a
missing `param_name`). -/
def parameterQueryCandidates (device : Device) (query : Option String) :
    List String :=
  match query with
  | none => []
  | some queryText =>
    let queryNorm := normalizeName queryText
    let aliasCands :=
      if isEq8Device device then
        match eq8ParameterAliases.find? (fun kv => kv.1 = queryNorm) with
        | some kv => kv.2
        | none => []
      else []
    dedupCandidates (aliasCands ++ [queryText]) []

/-- Loop of `_match_parameter_by_name`: first exact normalized hit returns
immediately; otherwise the strictly best-scoring parameter wins.  Returns the
winning index into the parameter list. -/
def mpLoop (queryNorm : String) (queryTokens : List String) :
    List Param → Nat → Option Nat → ℚ → Option Nat
  | [], _, best, _ => best
  | p :: rest, i, best, bestScore =>
    let pnorm := normalizeName p.name
    if pnorm = "" then mpLoop queryNorm queryTokens rest (i + 1) best bestScore
    else if queryNorm = pnorm then some i
    else
      let base : ℚ :=
        if strContains pnorm queryNorm || strContains queryNorm pnorm then 2 else 0
      let ptokens := (findTokens pnorm).dedup
      let score := qadd base (mkRat (Int.ofNat (setInterCount queryTokens ptokens)) 1)
      if bestScore < score then mpLoop queryNorm queryTokens rest (i + 1) (some i) score
      else mpLoop queryNorm queryTokens rest (i + 1) best bestScore

/-- Model of `ChainTools._match_parameter_by_name`. -/
def matchParameterByName (parameters : List Param) (query : String) : Option Nat :=
  let queryNorm := normalizeName query
  if queryNorm = "" then none
  else mpLoop queryNorm ((findTokens queryNorm).dedup) parameters 0 none 0

/-- Tries each candidate in order, the loop of `_resolve_parameter`. -/
def candidateSearch (parameters : List Param) : List String → Option Nat
  | [] => none
  | q :: qs =>
    match matchParameterByName parameters q with
    | some i => some i
    | none => candidateSearch parameters qs

/-- One parameter-update instruction; `some` on a target field models key
presence in the update dictionary. -/
structure UpdateObj where
  paramName : Option String
  paramIndex : Option IntLike
  value : Option NumLike
  targetDisplayValue : Option NumLike
  targetDisplayText : Option String
  targetUnit : Option String
  fallbackValue : Option NumLike

inductive UpdateVal where
  | notObj
  | obj (u : UpdateObj)

/-- Model of `ChainTools._resolve_parameter`, returning the index of the
resolved parameter (an integer `param_index` that is out of range falls
through to name matching, exactly as in the source). -/
def resolveParameterIdx (device : Device) (u : UpdateObj) : Option Nat :=
  let parameters := device.params
  if parameters.isEmpty then none
  else
    let nameSearch :=
      candidateSearch parameters (parameterQueryCandidates device u.paramName)
    match u.paramIndex with
    | some .nonint => none
    | some (.int i) =>
      if 0 ≤ i ∧ i < (parameters.length : Int) then some i.toNat else nameSearch
    | none => nameSearch

/-- One entry of `parameters_applied`. -/
structure AppliedEntry where
  paramName : String
  paramValue : Option ℚ
  displayValue : Option String
  mode : Option String
  exactMatch : Option Bool
deriving DecidableEq

/-- Hint recorded for an unresolvable update (the textual form of a
non-integer `param_index` value is not modelled; no claim exercises it). -/
def unmatchedHint (u : UpdateObj) : String :=
  match u.paramName with
  | some s => if s = "" then "unknown" else s
  | none =>
    match u.paramIndex with
    | some (.int i) => "index:" ++ toString i
    | some .nonint => "index:?"
    | none => "unknown"

inductive UpdateOutcome where
  | applied (e : AppliedEntry)
  | unmatched (hint : String)
  | failed (hint : String) (warning : String)

/-- Body of the `_apply_parameter_updates` loop for one update. -/
def applyOneUpdate (device : Device) (u : UpdateVal) : UpdateOutcome × Device :=
  match u with
  | .notObj => (.unmatched "invalid update payload", device)
  | .obj uo =>
    match resolveParameterIdx device uo with
    | none => (.unmatched (unmatchedHint uo), device)
    | some pidx =>
      match device.params.get? pidx with
      | none => (.unmatched (unmatchedHint uo), device)
      | some targetParam =>
        if uo.targetDisplayText.isSome || uo.targetDisplayValue.isSome || uo.value.isSome then
          let ar :=
            match uo.targetDisplayText with
            | some tdt => setParameterByDisplayText targetParam tdt uo.fallbackValue
            | none =>
              match uo.targetDisplayValue with
              | some tdv =>
                setParameterWithVerify targetParam tdv uo.targetUnit uo.fallbackValue
              | none => setParameterAbsolute targetParam (uo.value.getD .nonnum)
          let device1 : Device := { device with params := device.params.set pidx ar.2.1 }
          if !ar.1.ok then
            let warning :=
              match ar.1.error with
              | some e => if e = "" then "parameter update failed" else e
              | none => "parameter update failed"
            (.failed targetParam.name warning, device1)
          else
            (.applied { paramName := ar.2.1.name, paramValue := ar.1.value,
                        displayValue := ar.1.display, mode := ar.1.mode,
                        exactMatch := ar.1.exactMatch }, device1)
        else
          (.unmatched (match uo.paramName with
                       | some s => if s = "" then "unknown" else s
                       | none => "unknown"), device)

/-- The `parameter_updates` payload of a step: absent/None, a list, or a
non-list value. -/
inductive PUpd where
  | absent
  | notList
  | list (us : List UpdateVal)

structure ApplyUpdatesRes where
  ok : Bool
  error : Option String
  parametersApplied : List AppliedEntry
  unmatchedParameters : List String
  warnings : List String
deriving DecidableEq

def applyUpdatesLoop (device : Device) :
    List UpdateVal → List AppliedEntry → List String → List String →
    List AppliedEntry × List String × List String × Device
  | [], applied, unmatched, warnings => (applied, unmatched, warnings, device)
  | u :: rest, applied, unmatched, warnings =>
    match applyOneUpdate device u with
    | (.applied e, d1) => applyUpdatesLoop d1 rest (applied ++ [e]) unmatched warnings
    | (.unmatched h, d1) => applyUpdatesLoop d1 rest applied (unmatched ++ [h]) warnings
    | (.failed h w, d1) =>
      applyUpdatesLoop d1 rest applied (unmatched ++ [h]) (warnings ++ [w])

/-- Model of `ChainTools._apply_parameter_updates`. -/
def applyParameterUpdates (device : Device) (parameterUpdates : PUpd) :
    ApplyUpdatesRes × Device :=
  match parameterUpdates with
  | .notList =>
    ({ ok := false, error := some "parameter_updates must be an array",
       parametersApplied := [], unmatchedParameters := [], warnings := [] }, device)
  | .absent =>
    ({ ok := true, error := none, parametersApplied := [],
       unmatchedParameters := [], warnings := [] }, device)
  | .list us =>
    let r := applyUpdatesLoop device us [] [] []
    ({ ok := true, error := none, parametersApplied := r.1,
       unmatchedParameters := r.2.1, warnings := r.2.2.1 }, r.2.2.2)

/-! ## Position planner (`ChainTools._apply_device_position`,
`_find_anchor_device_index`) -/

def imax (a b : Int) : Int := if a ≤ b then b else a

def imin (a b : Int) : Int := if b ≤ a then b else a

structure PositionObj where
  placement : Option String
  relativeDeviceName : Option String
  relativeDeviceIndex : Option IntLike

/-- A caller-supplied `position` value: a dictionary or some other truthy
value (a falsy `position` is modelled as an absent one). -/
inductive PosVal where
  | notDict
  | dict (p : PositionObj)

/-- Model of `ChainTools._find_anchor_device_index`. -/
def findAnchorDeviceIndex (devices : List Device) (anchorName : Option String)
    (occurrence : Option IntLike) : Option Nat :=
  match anchorName with
  | none => none
  | some an =>
    if an = "" then none
    else
      let target := normalizeName an
      let found := (devices.enum.filter (fun it =>
        let candidate := normalizeName it.2.name
        !(target = "") &&
          (target = candidate || strContains candidate target ||
            strContains target candidate))).map (fun it => it.1)
      match found with
      | [] => none
      | m :: _ =>
        let pick :=
          match occurrence with
          | some (.int i) =>
            if 0 ≤ i ∧ i < (found.length : Int) then found.get? i.toNat else none
          | _ => none
        match pick with
        | some idx => some idx
        | none => some m

/-- Intermediate result of the desired-slot computation inside
`_apply_device_position`: either an early return or a desired slot with the
message that will accompany it. -/
inductive PosDesired where
  | early (finalIndex : Int) (applied : Bool) (message : Option String)
  | go (desired : Int) (message : Option String)

/-- Desired-slot computation of `_apply_device_position` (`insert_index`
branch first, then the `position` dictionary branch). -/
def positionDesired (devices : List Device) (currentIndex : Int)
    (position : Option PosVal) (insertIndex : Option IntLike) : PosDesired :=
  match insertIndex with
  | some .nonint => .early currentIndex false (some "invalid insert_index")
  | some (.int i) =>
    let desired := imax 0 (imin i ((devices.length : Int) - 1))
    .go desired (some ("insert_index=" ++ toString i))
  | none =>
    match position with
    | some (.dict p) =>
      let placement := pyLower (p.placement.getD "")
      match findAnchorDeviceIndex devices p.relativeDeviceName p.relativeDeviceIndex with
      | none => .early currentIndex false (some "anchor not found")
      | some anchor =>
        let desired0 : Int :=
          if placement = "before" then (anchor : Int) else (anchor : Int) + 1
        let desired := imax 0 (imin desired0 ((devices.length : Int) - 1))
        .go desired (some (placement ++ " " ++ (p.relativeDeviceName.getD "None")))
    | _ => .go currentIndex none

structure PosResult where
  finalIndex : Int
  applied : Bool
  message : Option String
  moveRequested : Option Int
  devices : List Device

/-- Model of `ChainTools._apply_device_position`.  The collaborator call
`song.move_device(device, track, desired)` is modelled by `moveExc` (`none`
means the move succeeds, reordering the device list; `some e` means it raises
`e`); the move actually issued is recorded in `moveRequested`. -/
def applyDevicePosition (devices : List Device) (device : Device)
    (currentIndex : Int) (position : Option PosVal) (insertIndex : Option IntLike)
    (moveExc : Option String) : PosResult :=
  if devices.isEmpty then
    { finalIndex := currentIndex, applied := false,
      message := some "No devices on track", moveRequested := none,
      devices := devices }
  else
    match positionDesired devices currentIndex position insertIndex with
    | .early fi ap msg =>
      { finalIndex := fi, applied := ap, message := msg, moveRequested := none,
        devices := devices }
    | .go desired msg =>
      if desired = currentIndex then
        { finalIndex := currentIndex, applied := false, message := msg,
          moveRequested := none, devices := devices }
      else
        match moveExc with
        | none =>
          { finalIndex := desired, applied := true, message := msg,
            moveRequested := some desired,
            devices := (devices.eraseIdx currentIndex.toNat).insertIdx desired.toNat device }
        | some e =>
          { finalIndex := currentIndex, applied := false,
            message := some ("positioning failed: " ++ e),
            moveRequested := some desired, devices := devices }

/-! ## Browser catalog (`ChainTools._find_browser_device`,
`_search_browser_node`) and device insertion (`_insert_device`)

A catalog node carries the device that materializes on the track when the
node is loaded (`loads = none` models a load that never materializes, i.e.
the 20-poll timeout).  The source's stack-based traversal pops the most
recently pushed child first, so children are searched in reverse order, each
subtree fully before its left sibling. -/

inductive BNode where
  | mk (name : String) (isLoadable : Bool) (loads : Option Device)
       (children : List BNode)

def bnodeLoads : BNode → Option Device
  | .mk _ _ l _ => l

mutual

def searchBrowserNode (t : String) : BNode → Option BNode
  | .mk name loadable loads children =>
    let n := normalizeName name
    if (!(t = "") && (t = n || strContains n t)) && loadable then
      some (.mk name loadable loads children)
    else searchScan t children

def searchScan (t : String) : List BNode → Option BNode
  | [] => none
  | n :: ns =>
    match searchScan t ns with
    | some r => some r
    | none => searchBrowserNode t n

end

structure Browser where
  roots : List BNode

def rootsScan (t : String) : List BNode → Option BNode
  | [] => none
  | r :: rs =>
    match searchBrowserNode t r with
    | some x => some x
    | none => rootsScan t rs

/-- Model of `ChainTools._find_browser_device` (the catalog roots are searched
in their listed order). -/
def findBrowserDevice (browser : Browser) (deviceName : String) : Option BNode :=
  rootsScan (normalizeName deviceName) browser.roots

/-- The `_DEVICE_ALIASES` table. -/
def deviceAliases : List (String × String) :=
  [("eq8", "EQ Eight"), ("eq eight", "EQ Eight"), ("eq-8", "EQ Eight"),
   ("compressor", "Compressor"), ("glue compressor", "Glue Compressor"),
   ("limiter", "Limiter"), ("auto filter", "Auto Filter"),
   ("utility", "Utility"), ("reverb", "Reverb"), ("delay", "Delay")]

/-- Model of `ChainTools._resolve_device_alias`. -/
def resolveDeviceAlias (deviceName : String) : String :=
  let raw := pyStrip deviceName
  match deviceAliases.find? (fun kv => kv.1 = pyLower raw) with
  | some kv => kv.2
  | none => raw

/-- One build step (`some` models key presence; a missing/falsy `device_name`
collapses to `""` just as `str(step.get("device_name") or "")` does). -/
structure StepObj where
  deviceName : String
  position : Option PosVal
  insertIndex : Option IntLike
  parameterUpdates : PUpd

inductive StepVal where
  | notObj
  | obj (s : StepObj)

/-- Collaborator behaviour around one build call. -/
structure BuildEnv where
  browser : Option Browser
  moveExc : Option String

/-- Mutable state touched by a build call: the resolved track's device list
and the view's selected-track index. -/
structure BuildState where
  devices : List Device
  selected : Option Int

structure InsertOk where
  device : Device
  deviceIndex : Int
  positionApplied : Bool
  positionMessage : Option String

/-- Model of `ChainTools._insert_device`.  The selection assignment and the
load/poll sequence of the source are replayed on the state: the found
catalog item either materializes its device (appended at the end of the
device list) or times out after the poll budget. -/
def insertDevice (env : BuildEnv) (st : BuildState) (trackIndex : Int)
    (step : StepObj) : Except String InsertOk × BuildState :=
  match env.browser with
  | none => (.error "Browser API not available", st)
  | some browser =>
    let canonicalName := resolveDeviceAlias step.deviceName
    match findBrowserDevice browser canonicalName with
    | none => (.error ("Device '" ++ canonicalName ++ "' not found"), st)
    | some item =>
      let st1 : BuildState := { st with selected := some trackIndex }
      match bnodeLoads item with
      | none => (.error "Device load timed out", st1)
      | some dev =>
        let devices1 := st1.devices ++ [dev]
        let currentIndex : Int := (devices1.length : Int) - 1
        if step.position.isSome || step.insertIndex.isSome then
          let pr := applyDevicePosition devices1 dev currentIndex step.position
            step.insertIndex env.moveExc
          (.ok { device := dev, deviceIndex := pr.finalIndex,
                 positionApplied := pr.applied, positionMessage := pr.message },
            { st1 with devices := pr.devices })
        else
          (.ok { device := dev, deviceIndex := currentIndex,
                 positionApplied := false, positionMessage := none },
            { st1 with devices := devices1 })

structure StepResult where
  stepIndex : Nat
  deviceName : String
  deviceClass : String
  deviceIndex : Int
  positionApplied : Bool
  positionMessage : Option String
  parametersApplied : List AppliedEntry
  unmatchedParameters : List String
deriving DecidableEq

/-- Body of the `build_device_chain` loop for step number `idx`; an error
carries the state reached so far (mutations are not rolled back). -/
def processStep (env : BuildEnv) (trackIndex : Int) (st : BuildState)
    (idx : Nat) (step : StepVal) :
    Except (String × BuildState) (StepResult × List String × BuildState) :=
  match step with
  | .notObj => .error ("step " ++ toString idx ++ " must be an object", st)
  | .obj s =>
    let deviceName := pyStrip s.deviceName
    if deviceName = "" then
      .error ("step " ++ toString idx ++ " missing device_name", st)
    else
      match insertDevice env st trackIndex s with
      | (.error e, st1) => .error ("step " ++ toString idx ++ " failed: " ++ e, st1)
      | (.ok info, st1) =>
        let ar := applyParameterUpdates info.device s.parameterUpdates
        if !ar.1.ok then
          let msg :=
            match ar.1.error with
            | some e => if e = "" then "parameter update failed" else e
            | none => "parameter update failed"
          .error ("step " ++ toString idx ++ " failed: " ++ msg, st1)
        else
          let st2 : BuildState :=
            { st1 with devices := st1.devices.set info.deviceIndex.toNat ar.2 }
          .ok ({ stepIndex := idx, deviceName := info.device.name,
                 deviceClass := deviceClassName info.device,
                 deviceIndex := info.deviceIndex,
                 positionApplied := info.positionApplied,
                 positionMessage := info.positionMessage,
                 parametersApplied := ar.1.parametersApplied,
                 unmatchedParameters := ar.1.unmatchedParameters },
               ar.1.warnings, st2)

/-- The step loop of `build_device_chain`: per-step results and warnings are
accumulated in order; the first failing step aborts, carrying the results of
the completed steps and the mutated state. -/
def runSteps (env : BuildEnv) (trackIndex : Int) :
    Nat → BuildState → List StepVal →
    Except (String × List StepResult × BuildState)
      (List StepResult × List String × BuildState)
  | _, st, [] => .ok ([], [], st)
  | idx, st, s :: rest =>
    match processStep env trackIndex st idx s with
    | .error (e, st1) => .error (e, [], st1)
    | .ok (r, ws, st1) =>
      match runSteps env trackIndex (idx + 1) st1 rest with
      | .ok (rs, ws2, st2) => .ok (r :: rs, ws ++ ws2, st2)
      | .error (e, rs, st2) => .error (e, r :: rs, st2)

/-- Structured result of `build_device_chain` (the wall-clock `elapsed_ms`
field is not modelled; `none` models an absent key). -/
structure BuildPayload where
  ok : Bool
  message : Option String
  error : Option String
  targetTrack : Option (Int × String)
  stepsExecuted : Option (List StepResult)
  warnings : Option (List String)
deriving DecidableEq

/-- Model of `ChainTools.build_device_chain` together with the final state of
the resolved track's device list and the selection (a non-list `steps`
payload is rejected by the same guard as an empty one and is not separately
modelled). -/
def buildDeviceChain (env : BuildEnv) (song : Song) (steps : List StepVal)
    (target : TargetVal) : BuildPayload × BuildState :=
  let sel0 : Option Int := song.selectedTrack.map (fun i => (i : Int))
  if steps.isEmpty then
    ({ ok := false, message := none, error := some "steps must be a non-empty array",
       targetTrack := none, stepsExecuted := none, warnings := none },
      ⟨[], sel0⟩)
  else
    match resolveTrackTarget song target with
    | .error e =>
      ({ ok := false, message := none, error := some e, targetTrack := none,
         stepsExecuted := none, warnings := none }, ⟨[], sel0⟩)
    | .ok (track, trackIndex) =>
      let st0 : BuildState := ⟨track.devices, sel0⟩
      match runSteps env trackIndex 0 st0 steps with
      | .error (e, rs, st1) =>
        ({ ok := false, message := none, error := some e,
           targetTrack := some (trackIndex, track.name),
           stepsExecuted := some rs, warnings := none }, st1)
      | .ok (rs, ws, st1) =>
        ({ ok := true, message := some "chain built", error := none,
           targetTrack := some (trackIndex, track.name),
           stepsExecuted := some rs, warnings := some ws }, st1)

/-! ## Test-harness display renderers

Synthetic `str_for_value` oracles used by concrete witnesses; `renderFixed`
prints a rational exactly with a fixed number of decimals (all witness values
are chosen so the denominator divides the printed power of ten). -/

def renderFixed (q : ℚ) (digits : Nat) : String :=
  let sign := if q.num < 0 then "-" else ""
  let n : Nat := (q.num.natAbs * 10 ^ digits) / q.den
  let ip := n / 10 ^ digits
  let fp := n % 10 ^ digits
  let fpStr := toString fp
  let pad := String.mk (List.replicate (digits - fpStr.length) '0')
  sign ++ toString ip ++ "." ++ pad ++ fpStr

/-! ## Claim theorems -/

/-- C1: the claim states that converting the display number `8.00` parsed from
the rendered string `"8.00 kHz"` with requested unit `"hz"` yields `8000.0`.
The code has no kilohertz branch: `_convert_display_number_for_unit` falls
through to returning the parsed number unchanged, so the pipeline yields `8`,
not `8000` — contradicting the spec and the repository's own test
`test_convert_display_number_for_unit_khz_to_hz`.  This theorem evaluates the
embedded code at the failing input. -/
theorem khz_conversion_returns_unscaled_number :
    parseDisplayNumber "8.00 kHz" = some 8 ∧
    convertDisplayNumberForUnit (some 8) "8.00 kHz" (some "hz") = some 8 ∧
    convertDisplayNumberForUnit (parseDisplayNumber "8.00 kHz") "8.00 kHz"
      (normalizeUnitHint (some "hz")) = some 8 ∧
    ((8000 : ℚ) = 8) = False := by
  refine ⟨by decide, by decide, by decide, by decide⟩

/-- Auxiliary: `indexGet` distributes over append of association lists. -/
lemma indexGet_append (l1 l2 : List (String × Param)) (key : String) :
    indexGet (l1 ++ l2) key =
      match indexGet l1 key with
      | some p => some p
      | none => indexGet l2 key := by
  unfold indexGet
  rw [List.find?_append]
  cases h : l1.find? (fun kv => decide (kv.1 = key)) <;>
    simp [h, Option.orElse]

/-- Auxiliary: looking up a nonempty key in the built parameter index is a
first-match search over the parameter list. -/
lemma indexGet_fold (params : List Param) (acc : List (String × Param))
    (key : String) (hkey : key ≠ "") :
    indexGet (params.foldl (fun idx p => indexInsert idx (normalizeQuery p.name) p) acc) key =
      match indexGet acc key with
      | some p => some p
      | none => params.find? (fun p => normalizeQuery p.name = key) := by
  induction params generalizing acc with
  | nil =>
    cases h : indexGet acc key <;> simp [List.foldl, List.find?, h]
  | cons p ps ih =>
    simp only [List.foldl]
    rw [ih]
    unfold indexInsert
    by_cases hk : normalizeQuery p.name = ""
    · have hne : ¬ (normalizeQuery p.name = key) := by
        intro h; exact hkey (h ▸ hk.symm ▸ rfl)
      have hne2 : ¬ ("" = key) := fun hcontra => hkey hcontra.symm
      simp only [hk, if_pos rfl]
      cases h : indexGet acc key <;>
        simp [h, List.find?, hk, hne, hne2]
    · rw [if_neg hk]
      by_cases hmem : (acc.find? (fun kv => kv.1 = normalizeQuery p.name)).isSome
      · rw [if_pos hmem]
        cases h : indexGet acc key with
        | some q => simp [h]
        | none =>
          by_cases heq : normalizeQuery p.name = key
          · exfalso
            have : indexGet acc (normalizeQuery p.name) = none := heq ▸ h
            unfold indexGet at this
            rw [Option.map_eq_none'] at this
            rw [this] at hmem
            simp at hmem
          · simp [h, List.find?, heq]
      · rw [if_neg hmem]
        rw [indexGet_append]
        cases h : indexGet acc key with
        | some q => simp [h]
        | none =>
          by_cases heq : normalizeQuery p.name = key
          · simp [h, indexGet, List.find?, heq]
          · simp [h, indexGet, List.find?, heq]

/-- Auxiliary: lookup in `build_parameter_index` is first-match search. -/
lemma indexGet_buildParameterIndex (params : List Param) (key : String)
    (hkey : key ≠ "") :
    indexGet (buildParameterIndex params) key =
      params.find? (fun p => normalizeQuery p.name = key) := by
  unfold buildParameterIndex
  rw [indexGet_fold params [] key hkey]
  simp [indexGet, List.find?]

/-- C2: exact beats alias in `resolve_parameter`.  Whenever the parameter list
contains a parameter whose normalized name equals the normalized query (the
first such parameter, per the first-occurrence-wins index), resolution
returns exactly that parameter with `matched_by="exact"`, for every alias
table — an alias target can never preempt an exact match. -/
theorem resolve_parameter_exact_beats_alias (parameters : List Param)
    (device : Device) (query : String)
    (curatedAliases : List (String × List String)) (p : Param)
    (hnq : normalizeQuery query ≠ "")
    (hfind : parameters.find? (fun q => normalizeQuery q.name = normalizeQuery query) = some p) :
    (resolveParameterRes parameters device query curatedAliases).1 = some p ∧
    (resolveParameterRes parameters device query curatedAliases).2.matchedBy = some "exact" ∧
    (resolveParameterRes parameters device query curatedAliases).2.resolvedParamName = some p.name := by
  unfold resolveParameterRes
  rw [if_neg hnq]
  have h := indexGet_buildParameterIndex parameters (normalizeQuery query) hnq
  simp [h, hfind]

/-- Fixture: an EQ-Eight-like device with the two gain parameters of the
claim. -/
def eqGainA1 : Param :=
  { name := "1 Gain A", pmin := qneg 15, pmax := 15, isQuantized := false,
    strForValue := fun v => renderFixed v 2 ++ " dB", value := 0 }

def eqGainA8 : Param :=
  { name := "8 Gain A", pmin := qneg 15, pmax := 15, isQuantized := false,
    strForValue := fun v => renderFixed v 2 ++ " dB", value := 0 }

def eq8DemoDevice : Device :=
  { name := "EQ Eight", className := "Eq8", pyTypeName := "Device",
    params := [eqGainA1, eqGainA8] }

/-- Alias table of the claim: `"1 gain a"` (normalized `1gaina`) maps to the
other band's parameter. -/
def demoAliasTable : List (String × List String) := [("1gaina", ["8 Gain A"])]

/-- C2 witness: resolving `"1 Gain A"` on `["1 Gain A", "8 Gain A"]` with the
adversarial alias table returns the exact parameter `"1 Gain A"`. -/
theorem resolve_parameter_exact_beats_alias_witness :
    (resolveParameterRes [eqGainA1, eqGainA8] eq8DemoDevice "1 Gain A" demoAliasTable).1 = some eqGainA1 ∧
    (resolveParameterRes [eqGainA1, eqGainA8] eq8DemoDevice "1 Gain A" demoAliasTable).2.matchedBy = some "exact" ∧
    (resolveParameterRes [eqGainA1, eqGainA8] eq8DemoDevice "1 Gain A" demoAliasTable).2.resolvedParamName = some eqGainA1.name :=
  resolve_parameter_exact_beats_alias [eqGainA1, eqGainA8] eq8DemoDevice
    "1 Gain A" demoAliasTable eqGainA1 (by decide) rfl

/-- Auxiliary: a character run list is nonempty when some character satisfies
the predicate. -/
lemma charRuns_ne_nil (p : Char → Bool) (l : List Char)
    (h : ∃ c ∈ l, p c = true) : charRuns p l ≠ [] := by
  induction l with
  | nil =>
    obtain ⟨c, hc, _⟩ := h
    exact absurd hc (List.not_mem_nil c)
  | cons c cs ih =>
    unfold charRuns
    by_cases hp : p c = true
    · rw [if_pos hp]
      cases hruns : charRuns p cs with
      | nil => simp
      | cons r rs =>
        cases cs with
        | nil => simp
        | cons d ds => by_cases hd : p d = true <;> simp [hd]
    · rw [if_neg hp]
      apply ih
      obtain ⟨c', hc', hpc'⟩ := h
      cases List.mem_cons.mp hc' with
      | inl heq => exact absurd (heq ▸ hpc') hp
      | inr hmem => exact ⟨c', hmem, hpc'⟩

/-- Auxiliary: token extraction yields a nonempty list whenever the input has
one alphanumeric character. -/
lemma findTokens_ne_nil (s : String)
    (h : ∃ c ∈ s.data, isTokChar (pyLowerChar c) = true) : findTokens s ≠ [] := by
  unfold findTokens
  intro hnil
  rw [List.map_eq_nil_iff] at hnil
  obtain ⟨c, hc, hp⟩ := h
  exact charRuns_ne_nil isTokChar (s.data.map pyLowerChar)
    ⟨pyLowerChar c, List.mem_map_of_mem pyLowerChar hc, hp⟩ hnil

/-- C9: stop-word-only track names stay resolvable.  Track-name normalization
drops stop words but falls back to the full token list when everything was
dropped, so any string with at least one alphanumeric character normalizes to
a nonempty token list; concretely, the stop-word-only track name
`"The Track"` is still matched (via the fuzzy path, scored 5.0) by the query
`"The Track!!"`. -/
theorem stopword_only_track_names_resolvable :
    (∀ s : String, (∃ c ∈ s.data, isTokChar (pyLowerChar c) = true) →
      normalizeTrackTokens s ≠ []) ∧
    resolveTrackByName [⟨"The Track", []⟩] "The Track!!" =
      some (⟨"The Track", []⟩, 0) ∧
    scoreTrackNameMatch (joinStrs (normalizeTrackTokens "the track")) "The Track" = 5 := by
  refine ⟨?_, rfl, by decide⟩
  intro s hs
  have hts : findTokens s ≠ [] := findTokens_ne_nil s hs
  unfold normalizeTrackTokens
  by_cases h : (findTokens s).filter (fun t => !(trackStopWords.contains t)) = []
  · simp only [h, if_pos rfl]
    exact hts
  · simp only [if_neg h]
    exact h

/-- C9 witness: the pure-stop-word string `"The"` contains an alphanumeric
character and normalizes to a nonempty token list. -/
theorem stopword_only_track_names_resolvable_witness :
    normalizeTrackTokens "The" ≠ [] :=
  stopword_only_track_names_resolvable.1 "The" (by decide)

/-- C5: ambiguity guards in track-name resolution.  (1) Two or more exact
(strip- and lower-insensitive) name matches make name resolution fail;
(2) on the fuzzy path, a top-two score gap below 0.25 makes it fail;
(3) resolution by an in-bounds `track_index` always succeeds regardless of the
other target fields. -/
theorem track_resolution_ambiguity_guards :
    (∀ (tracks : List Track) (query : String),
      2 ≤ (exactTrackMatches tracks (pyLower (pyStrip query))).length →
      resolveTrackByName tracks query = none) ∧
    (∀ (tracks : List Track) (query : String) (best second : ℚ × Nat × Track)
      (rest : List (ℚ × Nat × Track)),
      pyLower (pyStrip query) ≠ "" →
      exactTrackMatches tracks (pyLower (pyStrip query)) = [] →
      sortByKey scoredLE (scoredTracks tracks
        (joinStrs (normalizeTrackTokens (pyLower (pyStrip query))))) =
        best :: second :: rest →
      qabs (qsub best.1 second.1) < mkRat 1 4 →
      resolveTrackByName tracks query = none) ∧
    (∀ (song : Song) (i : Int) (tr : Track) (u : Option Bool) (n : Option String),
      0 ≤ i → song.tracks.get? i.toNat = some tr →
      resolveTrackTarget song (.obj ⟨u, some (.int i), n⟩) = .ok (tr, i)) := by
  refine ⟨?_, ?_, ?_⟩
  · intro tracks query h2
    simp only [resolveTrackByName]
    by_cases hq : pyLower (pyStrip query) = ""
    · rw [if_pos hq]
    · rw [if_neg hq]
      rcases hm : exactTrackMatches tracks (pyLower (pyStrip query)) with
        _ | ⟨a, _ | ⟨b, l⟩⟩
      · rw [hm] at h2; simp at h2
      · rw [hm] at h2; simp at h2
      · rfl
  · intro tracks query best second rest hq hexact hsorted hgap
    simp only [resolveTrackByName]
    rw [if_neg hq, hexact]
    simp only [hsorted]
    rw [if_pos hgap]
  · intro song i tr u n h0 hget
    have hlt : i.toNat < song.tracks.length := List.get?_eq_some.mp hget |>.1
    simp only [resolveTrackTarget, Option.isNone]
    have hcond : ¬ (i < 0 ∨ (song.tracks.length : Int) ≤ i) := by
      push_neg
      constructor
      · exact h0
      · omega
    simp only [Bool.and_false, Bool.false_and, Bool.false_eq_true, if_false]
    rw [if_neg hcond, hget]

def bassTrack : Track := ⟨"Bass", []⟩

def bassBTrack : Track := ⟨"Bass B", []⟩

def bassCTrack : Track := ⟨"Bass C", []⟩

def twoBassSong : Song := ⟨[bassTrack, bassTrack], some 0⟩

/-- C5 witness: two tracks both named "Bass" make name resolution fail; a
near-tie between "Bass B" and "Bass C" makes fuzzy resolution fail; index 1
still resolves on the duplicate-name song. -/
theorem track_resolution_ambiguity_guards_witness :
    resolveTrackByName [bassTrack, bassTrack] "BASS" = none ∧
    resolveTrackByName [bassBTrack, bassCTrack] "bass" = none ∧
    resolveTrackTarget twoBassSong (.obj ⟨none, some (.int 1), none⟩) = .ok (bassTrack, 1) :=
  ⟨track_resolution_ambiguity_guards.1 [bassTrack, bassTrack] "BASS" (by decide),
   track_resolution_ambiguity_guards.2.1 [bassBTrack, bassCTrack] "bass"
     (mkRat 5 2, 0, bassBTrack) (mkRat 5 2, 1, bassCTrack) [] (by decide) rfl
     rfl (by decide),
   track_resolution_ambiguity_guards.2.2 twoBassSong 1 bassTrack none none
     (by decide) rfl⟩

/-- Auxiliary: when every candidate scores zero, the display-text scan keeps
its initial empty accumulator. -/
lemma dtScan_all_zero (param : Param) (tn : String) (cs : List ℚ)
    (h : ∀ c ∈ cs, (scoreDisplayTextMatch tn
      (normalizeDisplayText (safeStrForValue param c))).1 = 0) :
    dtScan param tn cs (none, 0, false) = (none, 0, false) := by
  induction cs with
  | nil => rfl
  | cons c rest ih =>
    have hc := h c (List.mem_cons_self c rest)
    simp only [dtScan]
    rw [hc, if_neg (lt_irrefl (0 : ℚ))]
    exact ih (fun c' hc' => h c' (List.mem_cons_of_mem c hc'))

/-- C6: display-text mode contract.  (a) On a non-quantized parameter the mode
fails with the unsupported-mode error and performs no write; (b) on a
quantized parameter whose every enumerated step scores 0, a supplied numeric
fallback is applied via absolute clamping and reported as mode
`display_text_fallback` with `exact_match=false`; (c) with no fallback the
mode fails with the no-display-match error and performs no write. -/
theorem display_text_mode_contract :
    (∀ (param : Param) (tdt : String) (fb : Option NumLike),
      param.isQuantized = false → normalizeDisplayText tdt ≠ "" →
      setParameterByDisplayText param tdt fb =
        (applyError "target_display_text is only supported for quantized parameters",
          param, [])) ∧
    (∀ (param : Param) (tdt : String) (fbq : ℚ),
      param.isQuantized = true → normalizeDisplayText tdt ≠ "" →
      (∀ c ∈ quantizedStepCandidates param,
        (scoreDisplayTextMatch (normalizeDisplayText tdt)
          (normalizeDisplayText (safeStrForValue param c))).1 = 0) →
      setParameterByDisplayText param tdt (some (.num fbq)) =
        ({ ok := true, error := none, mode := some "display_text_fallback",
           value := some (qmin param.pmax (qmax param.pmin fbq)),
           display := some (param.strForValue (qmin param.pmax (qmax param.pmin fbq))),
           exactMatch := some false },
         { param with value := qmin param.pmax (qmax param.pmin fbq) },
         [qmin param.pmax (qmax param.pmin fbq)])) ∧
    (∀ (param : Param) (tdt : String),
      param.isQuantized = true → normalizeDisplayText tdt ≠ "" →
      (∀ c ∈ quantizedStepCandidates param,
        (scoreDisplayTextMatch (normalizeDisplayText tdt)
          (normalizeDisplayText (safeStrForValue param c))).1 = 0) →
      setParameterByDisplayText param tdt none =
        (applyError "target_display_text did not match any quantized value",
          param, [])) := by
  refine ⟨?_, ?_, ?_⟩
  · intro param tdt fb hq htn
    simp only [setParameterByDisplayText]
    rw [if_neg htn, hq]
    rfl
  · intro param tdt fbq hq htn hall
    simp only [setParameterByDisplayText]
    rw [if_neg htn, hq]
    simp only [Bool.not_true, Bool.false_eq_true, if_false,
      dtScan_all_zero param (normalizeDisplayText tdt) (quantizedStepCandidates param) hall]
    simp [displayTextFallback, setParameterAbsolute, safeStrForValue, hq]
  · intro param tdt hq htn hall
    simp only [setParameterByDisplayText]
    rw [if_neg htn, hq]
    simp only [Bool.not_true, Bool.false_eq_true, if_false,
      dtScan_all_zero param (normalizeDisplayText tdt) (quantizedStepCandidates param) hall]
    simp [displayTextFallback]

def filterTypeLabels (v : ℚ) : String :=
  if v = 0 then "Low Pass" else if v = 1 then "High Pass" else "Band Pass"

def filterTypeParam : Param :=
  { name := "Filter Type", pmin := 0, pmax := 2, isQuantized := true,
    strForValue := filterTypeLabels, value := 0 }

def gainParam : Param :=
  { name := "Gain", pmin := 0, pmax := 1, isQuantized := false,
    strForValue := fun v => toString v.num ++ "/" ++ toString v.den, value := 0 }

/-- C6 witness: the unsupported-mode failure on the continuous `Gain`
parameter, and the fallback/no-fallback outcomes for the unmatched label
`"zzz"` on the quantized `Filter Type` parameter. -/
theorem display_text_mode_contract_witness :
    setParameterByDisplayText gainParam "High Pass" none =
      (applyError "target_display_text is only supported for quantized parameters",
        gainParam, []) ∧
    setParameterByDisplayText filterTypeParam "zzz" (some (.num (mkRat 1 2))) =
      ({ ok := true, error := none, mode := some "display_text_fallback",
         value := some (qmin filterTypeParam.pmax (qmax filterTypeParam.pmin (mkRat 1 2))),
         display := some (filterTypeParam.strForValue
           (qmin filterTypeParam.pmax (qmax filterTypeParam.pmin (mkRat 1 2)))),
         exactMatch := some false },
       { filterTypeParam with value := qmin filterTypeParam.pmax (qmax filterTypeParam.pmin (mkRat 1 2)) },
       [qmin filterTypeParam.pmax (qmax filterTypeParam.pmin (mkRat 1 2))]) ∧
    setParameterByDisplayText filterTypeParam "zzz" none =
      (applyError "target_display_text did not match any quantized value",
        filterTypeParam, []) :=
  ⟨display_text_mode_contract.1 gainParam "High Pass" none rfl (by decide),
   display_text_mode_contract.2.1 filterTypeParam "zzz" (mkRat 1 2) rfl (by decide)
     (by decide),
   display_text_mode_contract.2.2 filterTypeParam "zzz" rfl (by decide) (by decide)⟩

/-- Auxiliary: the result shape of the common `_set_parameter_with_verify`
tail — always `ok=True`, no error key, mode `display_verify`, a present
`exact_match`, and a write trace equal to the incoming one or extended by the
clamped fallback. -/
lemma verifyFallback_spec (param1 : Param) (unit : Option String)
    (fb : Option NumLike) (display : String) (exact : Bool) (writes : List ℚ) :
    (verifyFallback param1 unit fb display exact writes).1.ok = true ∧
    (verifyFallback param1 unit fb display exact writes).1.error = none ∧
    (verifyFallback param1 unit fb display exact writes).1.mode = some "display_verify" ∧
    ((verifyFallback param1 unit fb display exact writes).1.exactMatch).isSome = true ∧
    ((verifyFallback param1 unit fb display exact writes).2.2 = writes ∨
      ∃ v, (verifyFallback param1 unit fb display exact writes).2.2 = writes ++ [v]) := by
  cases exact with
  | false =>
    cases fb with
    | none => exact ⟨rfl, rfl, rfl, rfl, Or.inl rfl⟩
    | some x =>
      cases x with
      | num q => exact ⟨rfl, rfl, rfl, rfl, Or.inr ⟨_, rfl⟩⟩
      | nonnum => exact ⟨rfl, rfl, rfl, rfl, Or.inl rfl⟩
  | true => exact ⟨rfl, rfl, rfl, rfl, Or.inl rfl⟩

/-- Auxiliary: the tail never empties a nonempty write trace. -/
lemma verifyFallback_writes_ne_nil (param1 : Param) (unit : Option String)
    (fb : Option NumLike) (display : String) (exact : Bool) (writes : List ℚ)
    (hw : writes ≠ []) :
    (verifyFallback param1 unit fb display exact writes).2.2 ≠ [] := by
  rcases (verifyFallback_spec param1 unit fb display exact writes).2.2.2.2 with h | ⟨v, h⟩
  · rw [h]; exact hw
  · rw [h]
    intro hnil
    exact absurd (List.append_eq_nil.mp hnil).2 (by simp)

/-- C10: display-value verification never reports failure and always writes.
For every parameter, numeric target, unit and fallback, the result is
`ok=True` with no error entry, mode `display_verify`, a present `exact_match`
tri-state, and at least one backing-value write is performed — unlike
display-text mode, which returns an error when nothing matches and no
fallback exists (final conjunct). -/
theorem display_value_verify_always_ok_and_writes :
    (∀ (param : Param) (t : ℚ) (unit : Option String) (fb : Option NumLike),
      (setParameterWithVerify param (.num t) unit fb).1.ok = true ∧
      (setParameterWithVerify param (.num t) unit fb).1.error = none ∧
      (setParameterWithVerify param (.num t) unit fb).1.mode = some "display_verify" ∧
      ((setParameterWithVerify param (.num t) unit fb).1.exactMatch).isSome = true ∧
      (setParameterWithVerify param (.num t) unit fb).2.2 ≠ []) ∧
    (setParameterByDisplayText filterTypeParam "zzz" none).1.ok = false := by
  constructor
  · intro param t unit fb
    simp only [setParameterWithVerify]
    by_cases hq : param.isQuantized
    · simp only [hq, if_true]
      refine ⟨(verifyFallback_spec _ _ _ _ _ _).1,
        (verifyFallback_spec _ _ _ _ _ _).2.1,
        (verifyFallback_spec _ _ _ _ _ _).2.2.1,
        (verifyFallback_spec _ _ _ _ _ _).2.2.2.1,
        verifyFallback_writes_ne_nil _ _ _ _ _ _ (List.cons_ne_nil _ _)⟩
    · simp only [hq, if_false]
      refine ⟨(verifyFallback_spec _ _ _ _ _ _).1,
        (verifyFallback_spec _ _ _ _ _ _).2.1,
        (verifyFallback_spec _ _ _ _ _ _).2.2.1,
        (verifyFallback_spec _ _ _ _ _ _).2.2.2.1,
        verifyFallback_writes_ne_nil _ _ _ _ _ _ (List.cons_ne_nil _ _)⟩
  · decide

/-- C8: position planner precedence, clamping, no-op and move reporting.
(a) `insert_index` takes precedence: the outcome is independent of any
`position` payload when `insert_index` is present; (b) an integer
`insert_index` is clamped into `[0, deviceCount-1]`; (c) whenever the desired
slot equals the current slot no move is requested from the collaborator, the
device list is unchanged and `position_applied=false` is reported; (d)
otherwise a move to the desired slot is requested and its success or failure
is reported. -/
theorem position_planner_noop_and_clamping :
    (∀ (devices : List Device) (device : Device) (cur : Int)
       (pos pos' : Option PosVal) (ii : IntLike) (mv : Option String),
      applyDevicePosition devices device cur pos (some ii) mv =
        applyDevicePosition devices device cur pos' (some ii) mv) ∧
    (∀ (devices : List Device) (cur : Int) (pos : Option PosVal) (i : Int),
      positionDesired devices cur pos (some (.int i)) =
        .go (imax 0 (imin i ((devices.length : Int) - 1)))
          (some ("insert_index=" ++ toString i))) ∧
    (∀ (devices : List Device) (device : Device) (cur : Int)
       (pos : Option PosVal) (ii : Option IntLike) (mv : Option String)
       (msg : Option String),
      devices ≠ [] →
      positionDesired devices cur pos ii = .go cur msg →
      applyDevicePosition devices device cur pos ii mv =
        { finalIndex := cur, applied := false, message := msg,
          moveRequested := none, devices := devices }) ∧
    (∀ (devices : List Device) (device : Device) (cur d : Int)
       (pos : Option PosVal) (ii : Option IntLike) (msg : Option String),
      devices ≠ [] →
      positionDesired devices cur pos ii = .go d msg →
      d ≠ cur →
      (applyDevicePosition devices device cur pos ii none).moveRequested = some d ∧
      (applyDevicePosition devices device cur pos ii none).applied = true ∧
      (applyDevicePosition devices device cur pos ii none).finalIndex = d ∧
      (∀ e : String,
        (applyDevicePosition devices device cur pos ii (some e)).moveRequested = some d ∧
        (applyDevicePosition devices device cur pos ii (some e)).applied = false ∧
        (applyDevicePosition devices device cur pos ii (some e)).finalIndex = cur ∧
        (applyDevicePosition devices device cur pos ii (some e)).devices = devices)) := by
  refine ⟨?_, ?_, ?_, ?_⟩
  · intro devices device cur pos pos' ii mv
    cases ii <;> rfl
  · intro devices cur pos i
    rfl
  · intro devices device cur pos ii mv msg hne hgo
    have hie : devices.isEmpty = false := by
      cases devices with
      | nil => exact absurd rfl hne
      | cons a l => rfl
    simp only [applyDevicePosition, hie, Bool.false_eq_true, if_false, hgo]
    simp
  · intro devices device cur d pos ii msg hne hgo hdc
    have hie : devices.isEmpty = false := by
      cases devices with
      | nil => exact absurd rfl hne
      | cons a l => rfl
    simp only [applyDevicePosition, hie, Bool.false_eq_true, if_false, hgo]
    refine ⟨?_, ?_, ?_, ?_⟩
    · rw [if_neg hdc]
    · rw [if_neg hdc]
    · rw [if_neg hdc]
    · intro e
      rw [if_neg hdc]
      exact ⟨rfl, rfl, rfl, rfl⟩

def utilityDevice : Device :=
  { name := "Utility", className := "StereoGain", pyTypeName := "Device",
    params := [gainParam] }

def limiterDevice : Device :=
  { name := "Limiter", className := "Limiter", pyTypeName := "Device",
    params := [gainParam] }

/-- C8 witness: on a two-device list, `insert_index=5` is clamped to slot 1
and, for the device already sitting at slot 1, reported as a no-op without a
collaborator move; for the device at slot 0 the move to slot 1 is requested
and reported; the outcome ignores a simultaneously supplied `position`. -/
theorem position_planner_noop_and_clamping_witness :
    applyDevicePosition [limiterDevice, utilityDevice] utilityDevice 1
        (some (.dict ⟨some "before", some "Limiter", none⟩)) (some (.int 5)) none =
      applyDevicePosition [limiterDevice, utilityDevice] utilityDevice 1
        none (some (.int 5)) none ∧
    positionDesired [limiterDevice, utilityDevice] 1 none (some (.int 5)) =
      .go 1 (some "insert_index=5") ∧
    applyDevicePosition [limiterDevice, utilityDevice] utilityDevice 1
        none (some (.int 5)) none =
      { finalIndex := 1, applied := false, message := some "insert_index=5",
        moveRequested := none, devices := [limiterDevice, utilityDevice] } ∧
    (applyDevicePosition [limiterDevice, utilityDevice] limiterDevice 0
        none (some (.int 1)) none).moveRequested = some 1 ∧
    (applyDevicePosition [limiterDevice, utilityDevice] limiterDevice 0
        none (some (.int 1)) (some "boom")).applied = false :=
  ⟨position_planner_noop_and_clamping.1 [limiterDevice, utilityDevice]
     utilityDevice 1 (some (.dict ⟨some "before", some "Limiter", none⟩)) none
     (.int 5) none,
   position_planner_noop_and_clamping.2.1 [limiterDevice, utilityDevice] 1 none 5,
   position_planner_noop_and_clamping.2.2.1 [limiterDevice, utilityDevice]
     utilityDevice 1 none (some (.int 5)) none (some "insert_index=5")
     (by intro h; cases h) rfl,
   (position_planner_noop_and_clamping.2.2.2 [limiterDevice, utilityDevice]
     limiterDevice 0 1 none (some (.int 1)) (some "insert_index=1")
     (by intro h; cases h) rfl (by decide)).1,
   ((position_planner_noop_and_clamping.2.2.2 [limiterDevice, utilityDevice]
     limiterDevice 0 1 none (some (.int 1)) (some "insert_index=1")
     (by intro h; cases h) rfl (by decide)).2.2.2 "boom").2.1⟩

/-! ## Shared concrete scenario: a one-track song with a catalog holding a
loadable Limiter and a Reverb whose load never materializes. -/

def demoBrowser : Browser :=
  { roots := [.mk "Audio Effects" false none
      [.mk "Limiter" true (some limiterDevice) [],
       .mk "Reverb" true none []]] }

def demoEnv : BuildEnv := { browser := some demoBrowser, moveExc := none }

def demoSong : Song := { tracks := [bassTrack], selectedTrack := some 0 }

def goodUpd : UpdateVal := .obj
  { paramName := some "Gain", paramIndex := none, value := some (.num (mkRat 2 5)),
    targetDisplayValue := none, targetDisplayText := none, targetUnit := none,
    fallbackValue := none }

def badUpd : UpdateVal := .obj
  { paramName := some "Wet", paramIndex := none, value := some (.num 1),
    targetDisplayValue := none, targetDisplayText := none, targetUnit := none,
    fallbackValue := none }

def limiterStep (pu : PUpd) : StepVal := .obj
  { deviceName := "Limiter", position := none, insertIndex := none,
    parameterUpdates := pu }

/-- C4: parameter mismatches degrade to warnings and never abort a step.
(i) `_apply_parameter_updates` reports `ok=True` for every update list;
(ii) for a two-update list whose first update applies and whose second
resolves to no parameter, the applied entry and the unmatched hint are both
recorded and the batch still succeeds; (iii) in the enclosing
`build_device_chain` call on the shared scenario, the step with one valid
(`Gain`) and one unmatched (`Wet`) update is reported successful with `Wet`
in `unmatched_parameters`. -/
theorem parameter_mismatch_degrades_to_warning :
    (∀ (device : Device) (us : List UpdateVal),
      (applyParameterUpdates device (.list us)).1.ok = true) ∧
    (∀ (device d1 d2 : Device) (u1 u2 : UpdateVal) (e : AppliedEntry)
       (hint : String),
      applyOneUpdate device u1 = (.applied e, d1) →
      applyOneUpdate d1 u2 = (.unmatched hint, d2) →
      applyParameterUpdates device (.list [u1, u2]) =
        ({ ok := true, error := none, parametersApplied := [e],
           unmatchedParameters := [hint], warnings := [] }, d2)) ∧
    ((buildDeviceChain demoEnv demoSong [limiterStep (.list [goodUpd, badUpd])]
        .noTarget).1.ok = true ∧
     ((buildDeviceChain demoEnv demoSong [limiterStep (.list [goodUpd, badUpd])]
        .noTarget).1.stepsExecuted.getD []).map
        (fun r => (r.parametersApplied.map (fun a => a.paramName),
                   r.unmatchedParameters)) = [(["Gain"], ["Wet"])]) := by
  refine ⟨?_, ?_, ?_, ?_⟩
  · intro device us
    rfl
  · intro device d1 d2 u1 u2 e hint h1 h2
    simp only [applyParameterUpdates, applyUpdatesLoop, h1, h2]
    simp
  · decide
  · decide

def gainAppliedEntry : AppliedEntry :=
  { paramName := "Gain", paramValue := some (mkRat 2 5),
    displayValue := some "2/5", mode := some "absolute", exactMatch := none }

def limiterAfterGain : Device :=
  { limiterDevice with params := [{ gainParam with value := mkRat 2 5 }] }

/-- C4 witness: the two-update batch `[Gain := 0.4, Wet := 1]` on the Limiter
applies `Gain`, leaves `Wet` unmatched, and still reports success. -/
theorem parameter_mismatch_degrades_to_warning_witness :
    (applyParameterUpdates limiterDevice (.list [goodUpd, badUpd])).1.ok = true ∧
    applyParameterUpdates limiterDevice (.list [goodUpd, badUpd]) =
      ({ ok := true, error := none, parametersApplied := [gainAppliedEntry],
         unmatchedParameters := ["Wet"], warnings := [] }, limiterAfterGain) :=
  ⟨parameter_mismatch_degrades_to_warning.1 limiterDevice [goodUpd, badUpd],
   parameter_mismatch_degrades_to_warning.2.1 limiterDevice
     limiterAfterGain limiterAfterGain goodUpd badUpd gainAppliedEntry
     "Wet" rfl rfl⟩

/-- Auxiliary: the step loop splits over list concatenation. -/
lemma runSteps_append (env : BuildEnv) (ti : Int) (l1 l2 : List StepVal) :
    ∀ (idx : Nat) (st : BuildState),
    runSteps env ti idx st (l1 ++ l2) =
      match runSteps env ti idx st l1 with
      | .error (e, rs, st1) => .error (e, rs, st1)
      | .ok (rs, ws, st1) =>
        match runSteps env ti (idx + l1.length) st1 l2 with
        | .ok (rs2, ws2, st2) => .ok (rs ++ rs2, ws ++ ws2, st2)
        | .error (e, rs2, st2) => .error (e, rs ++ rs2, st2) := by
  induction l1 with
  | nil =>
    intro idx st
    simp only [List.nil_append, List.length_nil, Nat.add_zero, runSteps]
    cases h : runSteps env ti idx st l2 with
    | ok x => rcases x with ⟨rs2, ws2, st2⟩; simp
    | error x => rcases x with ⟨e, rs2, st2⟩; simp
  | cons s l1' ih =>
    intro idx st
    simp only [List.cons_append, runSteps, List.append_eq]
    cases hp : processStep env ti st idx s with
    | error x => rcases x with ⟨e, st1⟩; rfl
    | ok x =>
      rcases x with ⟨r, ws, st1⟩
      dsimp only
      rw [ih (idx + 1) st1]
      have hidx : idx + 1 + l1'.length = idx + (s :: l1').length := by
        simp only [List.length_cons]
        omega
      rw [hidx]
      cases h1 : runSteps env ti (idx + 1) st1 l1' with
      | error y =>
        rcases y with ⟨e, rs, st2⟩
        rfl
      | ok y =>
        rcases y with ⟨rs, ws2, st2⟩
        dsimp only
        cases h2 : runSteps env ti (idx + (s :: l1').length) st2 l2 with
        | error z => rcases z with ⟨e, rs3, st3⟩; simp
        | ok z => rcases z with ⟨rs3, ws3, st3⟩; simp

/-- Auxiliary: a successful step loop produces one result per step. -/
lemma runSteps_ok_length (env : BuildEnv) (ti : Int) :
    ∀ (l : List StepVal) (idx : Nat) (st : BuildState) (rs : List StepResult)
      (ws : List String) (st1 : BuildState),
    runSteps env ti idx st l = .ok (rs, ws, st1) → rs.length = l.length := by
  intro l
  induction l with
  | nil =>
    intro idx st rs ws st1 h
    simp only [runSteps] at h
    cases h
    rfl
  | cons s rest ih =>
    intro idx st rs ws st1 h
    simp only [runSteps] at h
    cases hp : processStep env ti st idx s with
    | error x =>
      rcases x with ⟨e, stx⟩
      rw [hp] at h
      dsimp only at h
      cases h
    | ok x =>
      rcases x with ⟨r, w, stx⟩
      rw [hp] at h
      dsimp only at h
      cases hr : runSteps env ti (idx + 1) stx rest with
      | error y =>
        rcases y with ⟨e2, rs2, st2⟩
        rw [hr] at h
        dsimp only at h
        cases h
      | ok y =>
        rcases y with ⟨rs2, ws2, st2⟩
        rw [hr] at h
        dsimp only at h
        cases h
        simpa using ih (idx + 1) stx rs2 ws2 st1 hr

/-- C3: fail-fast with partial results in `build_device_chain`.  When the
first `i` steps run successfully (producing results `rs` and mutated state
`st1`) and step `i` fails structurally with message `e` (leaving state
`st2`), the whole call returns `ok=False` with exactly the per-step results
of steps `0..i-1` in `steps_executed`, and the returned track state is the
mutated one — earlier insertions and parameter writes are not rolled back. -/
theorem build_chain_fail_fast (env : BuildEnv) (song : Song)
    (steps : List StepVal) (target : TargetVal) (track : Track)
    (trackIndex : Int) (i : Nat) (badStep : StepVal) (e : String)
    (rs : List StepResult) (ws : List String) (st1 st2 : BuildState)
    (hres : resolveTrackTarget song target = .ok (track, trackIndex))
    (hpre : runSteps env trackIndex 0
      ⟨track.devices, song.selectedTrack.map (fun k => (k : Int))⟩ (steps.take i) =
      .ok (rs, ws, st1))
    (hbad : steps.get? i = some badStep)
    (hfail : processStep env trackIndex st1 i badStep = .error (e, st2)) :
    buildDeviceChain env song steps target =
      ({ ok := false, message := none, error := some e,
         targetTrack := some (trackIndex, track.name),
         stepsExecuted := some rs, warnings := none }, st2) ∧
    rs.length = i := by
  have hlt : i < steps.length := (List.get?_eq_some.mp hbad).1
  have hlen : (steps.take i).length = i := by
    rw [List.length_take]
    omega
  have hdrop : steps.drop i = badStep :: steps.drop (i + 1) := by
    rw [List.drop_eq_getElem_cons hlt]
    have h2 := (List.get?_eq_some.mp hbad).2
    rw [List.get_eq_getElem] at h2
    rw [h2]
  have hsplit : steps = steps.take i ++ (badStep :: steps.drop (i + 1)) := by
    conv_lhs => rw [← List.take_append_drop i steps]
    rw [hdrop]
  have hne : steps.isEmpty = false := by
    cases steps with
    | nil => simp at hlt
    | cons a l => rfl
  have hrun : runSteps env trackIndex 0
      ⟨track.devices, song.selectedTrack.map (fun k => (k : Int))⟩ steps =
      .error (e, rs, st2) := by
    conv_lhs => rw [hsplit]
    rw [runSteps_append]
    rw [hpre]
    try dsimp only
    simp only [hlen, Nat.zero_add, runSteps, hfail]
    try dsimp only
    simp
  have hlength : rs.length = i := by
    have := runSteps_ok_length env trackIndex (steps.take i) 0
      ⟨track.devices, song.selectedTrack.map (fun k => (k : Int))⟩ rs ws st1 hpre
    rw [this, hlen]
  refine ⟨?_, hlength⟩
  simp only [buildDeviceChain, hne, Bool.false_eq_true, if_false, hres, hrun]

def limiterStepResult : StepResult :=
  { stepIndex := 0, deviceName := "Limiter", deviceClass := "Limiter",
    deviceIndex := 0, positionApplied := false, positionMessage := none,
    parametersApplied := [], unmatchedParameters := [] }

def nopeStep : StepVal := .obj
  { deviceName := "Nope Device", position := none, insertIndex := none,
    parameterUpdates := .absent }

/-- C3 witness: on the shared scenario, step 0 inserts the Limiter and step 1
names an unknown device; the call fails with exactly step 0's result in
`steps_executed` and the Limiter still on the track. -/
theorem build_chain_fail_fast_witness :
    buildDeviceChain demoEnv demoSong [limiterStep .absent, nopeStep] .noTarget =
      ({ ok := false, message := none,
         error := some "step 1 failed: Device 'Nope Device' not found",
         targetTrack := some (0, "Bass"),
         stepsExecuted := some [limiterStepResult], warnings := none },
        ⟨[limiterDevice], some 0⟩) ∧
    [limiterStepResult].length = 1 :=
  build_chain_fail_fast demoEnv demoSong [limiterStep .absent, nopeStep]
    .noTarget bassTrack 0 1 nopeStep
    "step 1 failed: Device 'Nope Device' not found"
    [limiterStepResult] [] ⟨[limiterDevice], some 0⟩ ⟨[limiterDevice], some 0⟩
    rfl rfl rfl rfl

/-! ## The rational wrappers agree with the field operations on `ℚ` -/

lemma qadd_eq (a b : ℚ) : qadd a b = a + b := by
  unfold qadd
  rw [Rat.mkRat_eq_div]
  have ha : (a.den : ℚ) ≠ 0 := by exact_mod_cast a.den_nz
  have hb : (b.den : ℚ) ≠ 0 := by exact_mod_cast b.den_nz
  conv_rhs => rw [← Rat.num_div_den a, ← Rat.num_div_den b]
  push_cast
  field_simp

lemma qneg_eq (a : ℚ) : qneg a = -a := by
  unfold qneg
  rw [Rat.mkRat_eq_div]
  push_cast
  rw [neg_div, Rat.num_div_den]

lemma qsub_eq (a b : ℚ) : qsub a b = a - b := by
  unfold qsub
  rw [qadd_eq, qneg_eq, sub_eq_add_neg]

lemma qmul_eq (a b : ℚ) : qmul a b = a * b := by
  unfold qmul
  rw [Rat.mkRat_eq_div]
  have ha : (a.den : ℚ) ≠ 0 := by exact_mod_cast a.den_nz
  have hb : (b.den : ℚ) ≠ 0 := by exact_mod_cast b.den_nz
  conv_rhs => rw [← Rat.num_div_den a, ← Rat.num_div_den b]
  push_cast
  field_simp

lemma qabs_eq (a : ℚ) : qabs a = |a| := by
  unfold qabs
  by_cases h : a.num < 0
  · rw [if_pos h, qneg_eq, abs_of_neg (Rat.num_neg.mp h)]
  · rw [if_neg h, abs_of_nonneg (Rat.num_nonneg.mp (not_lt.mp h))]

/-! ## C7 fixtures

`steepBase` is a strictly monotone rational display curve reading 20 at 0 and
20000 at 1 whose rise is concentrated in the final `2^-20` of the backing
range; `linBase` is the linear curve with the same endpoints.  Both are
rendered exactly (their denominators divide the printed power of ten at every
value the engine probes). -/

def steepDelta : ℚ := mkRat 1 1048576

def steepG (v : ℚ) : ℚ := if v ≤ qsub 1 steepDelta then qmul v steepDelta else v

def steepBase (v : ℚ) : ℚ := qadd 20 (qmul (mkRat 19980 1) (steepG v))

def steepHzDisplay (v : ℚ) : String := renderFixed (steepBase v) 40 ++ " Hz"

def steepHzParam : Param :=
  { name := "Frequency", pmin := 0, pmax := 1, isQuantized := false,
    strForValue := steepHzDisplay, value := 0 }

def linBase (v : ℚ) : ℚ := qadd (mkRat 20 1) (qmul (mkRat 19980 1) v)

def linHzDisplay (v : ℚ) : String := renderFixed (linBase v) 20 ++ " Hz"

def linHzParam : Param :=
  { name := "Frequency", pmin := 0, pmax := 1, isQuantized := false,
    strForValue := linHzDisplay, value := mkRat 1 2 }

/-- The steep display curve is strictly monotone on `[0, 1]`: the C7
counterexample parameter genuinely satisfies the claim's monotone-display
hypothesis. -/
lemma steepBase_strictMono (v w : ℚ) (h0 : 0 ≤ v) (hvw : v < w) (_hw1 : w ≤ 1) :
    steepBase v < steepBase w := by
  have hδ : steepDelta = 1 / 1048576 := by
    unfold steepDelta
    rw [Rat.mkRat_eq_div]
    norm_num
  have h19980 : (mkRat 19980 1 : ℚ) = 19980 := by
    rw [Rat.mkRat_eq_div]
    norm_num
  have hg : steepG v < steepG w := by
    unfold steepG
    rw [qsub_eq, hδ, qmul_eq, qmul_eq]
    split_ifs with hv hw hw
    · nlinarith
    · nlinarith
    · exfalso
      nlinarith
    · exact hvw
  unfold steepBase
  rw [qadd_eq, qadd_eq, qmul_eq, qmul_eq, h19980]
  nlinarith

/-- The linear display curve is strictly monotone everywhere. -/
lemma linBase_strictMono (v w : ℚ) (hvw : v < w) : linBase v < linBase w := by
  have h19980 : (mkRat 19980 1 : ℚ) = 19980 := by
    rw [Rat.mkRat_eq_div]
    norm_num
  have h20 : (mkRat 20 1 : ℚ) = 20 := by
    rw [Rat.mkRat_eq_div]
    norm_num
  unfold linBase
  rw [qadd_eq, qadd_eq, qmul_eq, qmul_eq, h19980, h20]
  nlinarith

set_option maxRecDepth 40000

/-- C7 counterexample: the claim as stated fails on the code.  For the
non-quantized parameter `steepHzParam` — whose rendered display is a strictly
monotone numeric function of the backing value over `[0, 1]`
(`steepBase_strictMono`) reading 20 Hz at 0.0 and 20000 Hz at 1.0 —
requesting the display-value target 8000 ends the bounded bisection with a
backing value whose rendered display is nowhere near 8000: the call reports
`exact_match=false` and the relative parse error is not within 0.1%. -/
theorem bisection_steep_monotone_display_counterexample :
    steepHzParam.isQuantized = false ∧
    parseDisplayNumber (steepHzDisplay 0) = some 20 ∧
    parseDisplayNumber (steepHzDisplay 1) = some 20000 ∧
    (setParameterWithVerify steepHzParam (.num 8000) none none).1.ok = true ∧
    (setParameterWithVerify steepHzParam (.num 8000) none none).1.exactMatch = some false ∧
    ((parseDisplayNumber
        (((setParameterWithVerify steepHzParam (.num 8000) none none).1).display.getD "")).map
      (fun fn => decide (qdiv (qabs (qsub fn 8000)) 8000 < toleranceDefault))) = some false := by
  exact ⟨rfl, by decide, by decide, by decide, by decide, by decide⟩

/-- C7 amended: the bisection is bounded by 15 iterations, and for a
well-conditioned strictly monotone display reading 20 at 0.0 and 20000 at 1.0
— the linear curve `linBase` (`linBase_strictMono`), a rational stand-in for
the exponential exemplar — requesting display value 8000 applies a backing
value whose rendered display parses to within 0.1% relative error of 8000 and
reports `exact_match=true`; strict monotonicity alone does not guarantee
this (see the counterexample). -/
theorem bisection_linear_display_converges :
    maxIterationsDefault = 15 ∧
    linHzParam.isQuantized = false ∧
    parseDisplayNumber (linHzDisplay 0) = some 20 ∧
    parseDisplayNumber (linHzDisplay 1) = some 20000 ∧
    (setParameterWithVerify linHzParam (.num 8000) none none).1.ok = true ∧
    (setParameterWithVerify linHzParam (.num 8000) none none).1.exactMatch = some true ∧
    ((parseDisplayNumber
        (((setParameterWithVerify linHzParam (.num 8000) none none).1).display.getD "")).map
      (fun fn => decide (qdiv (qabs (qsub fn 8000)) 8000 < toleranceDefault))) = some true := by
  exact ⟨rfl, rfl, by decide, by decide, by decide, by decide, by decide⟩
